import Mathlib

/-!
Verification of the runtime config-object create/delete pipeline of
`src/lib/remote/configobjectutility.cpp` (class `ConfigObjectUtility`).

The C++ code is shallowly embedded as pure Lean functions.  External
collaborators that live outside the repository snapshot (the package/stage
bookkeeping in `ConfigPackageUtility`, `Utility::EscapeString`,
`Utility::TruncateUsingHash`, `AtomicFile`, the config compiler and the
item/object registry) are modelled either as explicit oracle inputs or as
definitions marked `Modelled from the spec:`; everything else follows the
C++ source line by line.
-/

set_option maxRecDepth 16384

namespace Icinga

/-- Log severities of lib/base/logger, as used by `configobjectutility.cpp`. -/
inductive LogSeverity where
  | LogDebug
  | LogNotice
  | LogInformation
  | LogWarning
  | LogCritical
deriving Repr, DecidableEq

/-- A reflection type as seen by `ConfigObjectUtility`: `Type::GetName()`,
`Type::GetPluralName()`, and the field table consulted via
`Type::GetFieldId` / `Type::GetFieldInfo`.  Each field is a pair of its name
and its `FAConfig` flag (`field.Attributes & FAConfig`). -/
structure ObjType where
  name : String
  pluralName : String
  fields : List (String × Bool)
deriving Repr, DecidableEq

/-- Modelled from the spec: the filesystem-hostile characters handed by
`ConfigObjectUtility::EscapeName` to `Utility::EscapeString`
(the literal `"<>:\"/\\|?*"` at line 129). -/
def hostileChars : List Char := [ '<', '>', ':', '"', '/', '\\', '|', '?', '*']

/-- Upper-case hex digit for a value below 16. -/
def hexDigitChar (n : Nat) : Char :=
  if n < 10 then Char.ofNat (48 + n) else Char.ofNat (55 + n)

/-- Two-digit upper-case hex rendering of a byte. -/
def hexByte (n : Nat) : String :=
  String.mk [hexDigitChar (n / 16 % 16), hexDigitChar (n % 16)]

/-- Modelled from the spec: `Utility::EscapeString` (base/utility.cpp, not
under src/) replaces each filesystem-hostile character, and the escape
character itself, by a reversible percent-hex escape sequence. -/
def escapeChar (c : Char) : String :=
  if c ∈ hostileChars ∨ c = '%' then "%" ++ hexByte c.toNat else String.mk [c]

/-- `ConfigObjectUtility::EscapeName` (line 127): escape a full object name
into a filesystem-safe file-name component. -/
def ConfigObjectUtility.EscapeName (name : String) : String :=
  String.join (name.toList.map escapeChar)

/-- Modelled from the spec: `Utility::TruncateUsingHash<80+3+40>`
(base/utility.hpp, not under src/): names of at most 123 bytes are kept
as-is, longer ones become an 80-byte truncated head, `"..."`, and the 40-byte
hex hash of the whole name.  The hash function itself is a parameter. -/
def truncateUsingHash (sha1Hex : String → String) (s : String) : String :=
  if s.length ≤ 123 then s
  else s.take 80 ++ "..." ++ sha1Hex s

/-- boost `to_lower` / `String::ToLower` on ASCII, as applied to the plural
type name at line 39. -/
def toLowerChar (c : Char) : Char :=
  if 65 ≤ c.toNat ∧ c.toNat ≤ 90 then Char.ofNat (c.toNat + 32) else c

/-- Lower-casing of a whole string, character by character. -/
def strToLower (s : String) : String := String.mk (s.toList.map toLowerChar)

/-- `ConfigObjectUtility::RepairPackage` (lines 71-107).  The recursive
directory scan is an external effect, so its outcome — the first directory
stem found inside the package tree, if any — is the `foundStage` oracle.
On success the found stage is activated (`ConfigPackageUtility::ActivateStage`)
and returned; otherwise `std::invalid_argument` is thrown. -/
def ConfigObjectUtility.RepairPackage (package : String) (foundStage : Option String) :
    Except String String :=
  match foundStage with
  | some s => .ok s
  | none => .error ("Cannot repair package \x27" ++ package ++
      "\x27, please check the troubleshooting docs.")

/-- `ConfigObjectUtility::GetConfigDir` (lines 22-31).  `packageDir` is
`ConfigPackageUtility::GetPackageDir()` and `activeStage` is the value
returned by `ConfigPackageUtility::GetActiveStage("_api")`, both external.
Note the source returns `prefix + activeStage` with the `activeStage`
variable read *before* `RepairPackage` ran; it is not re-queried after the
repair. -/
def ConfigObjectUtility.GetConfigDir (packageDir activeStage : String)
    (foundStage : Option String) : Except String String :=
  let pre := packageDir ++ "/_api/"
  if activeStage.isEmpty then
    match ConfigObjectUtility.RepairPackage "_api" foundStage with
    | .error e => .error e
    | .ok _ => .ok (pre ++ activeStage)
  else
    .ok (pre ++ activeStage)

/-- `ConfigObjectUtility::ComputeNewObjectConfigPath` (lines 33-64).
`sha1Hex` abstracts the SHA1 used by `Utility::TruncateUsingHash`; the
`packageDir` / `activeStage` / `foundStage` arguments feed the embedded
`GetConfigDir`, whose exception the result's `.error` case mirrors. -/
def ConfigObjectUtility.ComputeNewObjectConfigPath (sha1Hex : String → String)
    (packageDir activeStage : String) (foundStage : Option String)
    (type : ObjType) (fullName : String) : Except String String :=
  match ConfigObjectUtility.GetConfigDir packageDir activeStage foundStage with
  | .error e => .error e
  | .ok dir =>
    let pre := dir ++ "/conf.d/" ++ strToLower type.pluralName ++ "/"
    let escapedName := ConfigObjectUtility.EscapeName fullName
    let longPath := pre ++ escapedName ++ ".conf"
    if type.name ≠ "Comment" ∧ type.name ≠ "Downtime" then
      .ok longPath
    else
      .ok (pre ++ truncateUsingHash sha1Hex escapedName ++ ".conf")

/-- Modelled from the spec: `Utility::DirName` (base/utility.cpp, not under
src/), the parent directory of a path: everything before the last slash. -/
def dirName (path : String) : String :=
  String.mk (((path.toList.reverse.dropWhile (fun c => c ≠ '/')).drop 1).reverse)

/-- How a call to `CreateObject` ends: a `return` with a boolean, or an
exception escaping the function (possible only from the unguarded
`fp.flush()` before the `try` block at line 218). -/
inductive CallResult where
  | ret (value : Bool)
  | thrown (msg : String)
deriving Repr, DecidableEq

/-- Inputs of one `ConfigObjectUtility::CreateObject` call (lines 179-304),
together with oracles standing for the outcomes of the external
collaborators that the source consults:
* `packageDir`, `activeStage`, `foundStage` feed the embedded path
  computation, as in `ComputeNewObjectConfigPath`;
* `alreadyExists`: whether `configType->GetObject(fullName)` is non-null at
  line 187;
* `flushThrows` / `flushExMsg`: whether the `fp << config; fp.flush()` at
  lines 210-214 raises an I/O error (this happens before the `try`, so such
  an exception escapes the function);
* `evalThrows` / `evalExMsg`: whether evaluating the compiled expression at
  line 222 throws (compile errors of `ConfigCompiler::CompileText` surface
  here as throwing expressions);
* `commitOk` / `activateOk`: the boolean results of
  `ConfigItem::CommitItems` / `ConfigItem::ActivateItems`;
* `upqExMsgs`: the diagnostics drained from `upq.GetExceptions()` on a
  commit or activation failure;
* `filtered`: whether the final `ctype->GetObject(fullName)` re-query at
  line 280 comes back null even though commit and activation reported
  success (the object was silently ignored). -/
structure CreateEnv where
  type : ObjType
  fullName : String
  config : String
  packageDir : String
  activeStage : String
  foundStage : Option String
  alreadyExists : Bool
  flushThrows : Bool
  flushExMsg : String
  evalThrows : Bool
  evalExMsg : String
  commitOk : Bool
  upqExMsgs : List String
  activateOk : Bool
  filtered : Bool
deriving Repr, DecidableEq

/-- Observable outcome of one `CreateObject` call.  The filesystem effects
follow the `AtomicFile` contract, modelled from the spec (base/atomic-file
is not under src/): the configuration is first written to a unique temp
file, the destination path holds a file only after `fp.Commit()`
(`filesCreated`, with its creation mode), and leaving scope without a
commit deletes the temp file (`tempReleased`).  `registered` is modelled
from the spec: activation inside a fresh `ActivationScope` registers the
runtime object for `(type, fullName)` exactly when commit and activation
both succeed and the object was not filtered out, and a failed transaction
leaves no partially-defined state visible. -/
structure CreateOutcome where
  result : CallResult
  errors : List String
  diags : List String
  logs : List (LogSeverity × String)
  pathComputed : Option String
  dirsCreated : List (String × Nat)
  tempOpened : Option (String × Nat)
  tempCommitted : Bool
  tempReleased : Bool
  filesCreated : List (String × Nat)
  registered : Bool
  authorityUpdated : Bool
deriving Repr, DecidableEq

/-- The zero outcome: no effects, failure result, nothing reported. -/
def emptyOutcome : CreateOutcome where
  result := .ret false
  errors := []
  diags := []
  logs := []
  pathComputed := none
  dirsCreated := []
  tempOpened := none
  tempCommitted := false
  tempReleased := false
  filesCreated := []
  registered := false
  authorityUpdated := false

/-- `ConfigObjectUtility::CreateObject` (lines 179-304).  `CreateStorage()`
at line 182 only bootstraps the `_api` package under the static package
mutex and has no per-object effect, so it is not tracked.  The `errors` and
`diagnosticInformation` output arrays are modelled as starting empty. -/
def ConfigObjectUtility.CreateObject (sha1Hex : String → String) (e : CreateEnv) :
    CreateOutcome :=
  if e.alreadyExists then
    { emptyOutcome with
        result := .ret false
        errors := ["Object \x27" ++ e.fullName ++ "\x27 already exists."] }
  else
    match ConfigObjectUtility.ComputeNewObjectConfigPath sha1Hex e.packageDir
        e.activeStage e.foundStage e.type e.fullName with
    | .error ex =>
      { emptyOutcome with
          result := .ret false
          errors := ["Config package broken: " ++ ex] }
    | .ok path =>
      -- Utility::MkDirP(Utility::DirName(path), 0700) at line 203,
      -- then AtomicFile fp(path, 0644) at line 209.
      let dirs := [(dirName path, 0o700)]
      let temp := some (path, 0o644)
      if e.flushThrows then
        { emptyOutcome with
            result := .thrown e.flushExMsg
            pathComputed := some path
            dirsCreated := dirs
            tempOpened := temp
            tempReleased := true }
      else if e.evalThrows then
        { emptyOutcome with
            result := .ret false
            errors := [e.evalExMsg]
            diags := [e.evalExMsg]
            pathComputed := some path
            dirsCreated := dirs
            tempOpened := temp
            tempReleased := true }
      else if !e.commitOk then
        { emptyOutcome with
            result := .ret false
            logs := [(.LogNotice, "Failed to commit config item \x27" ++ e.fullName ++ "\x27.")]
            errors := e.upqExMsgs
            diags := e.upqExMsgs
            pathComputed := some path
            dirsCreated := dirs
            tempOpened := temp
            tempReleased := true }
      else if !e.activateOk then
        { emptyOutcome with
            result := .ret false
            logs := [(.LogNotice, "Failed to activate config object \x27" ++ e.fullName ++ "\x27.")]
            errors := e.upqExMsgs
            diags := e.upqExMsgs
            pathComputed := some path
            dirsCreated := dirs
            tempOpened := temp
            tempReleased := true }
      else
        -- lines 275-276: authority recomputation for all but Comment/Downtime
        let auth := e.type.name != "Comment" && e.type.name != "Downtime"
        if e.filtered then
          { emptyOutcome with
              result := .ret true
              logs := [(.LogNotice,
                "Object \x27" ++ e.fullName ++ "\x27 was not created but ignored due to errors.")]
              pathComputed := some path
              dirsCreated := dirs
              tempOpened := temp
              tempReleased := true
              authorityUpdated := auth }
        else
          { emptyOutcome with
              result := .ret true
              logs := [(.LogInformation,
                "Created and activated object \x27" ++ e.fullName ++ "\x27 of type \x27" ++
                  e.type.name ++ "\x27.")]
              pathComputed := some path
              dirsCreated := dirs
              tempOpened := temp
              tempCommitted := true
              tempReleased := false
              filesCreated := [(path, 0o644)]
              registered := true
              authorityUpdated := auth }

/-- `Type::GetFieldId` as used at line 152: index of the field with the given
name, or -1 when there is none. -/
def getFieldId (fields : List (String × Bool)) (n : String) : Int :=
  match fields.findIdx? (fun f => f.1 == n) with
  | some i => Int.ofNat i
  | none => -1

/-- `Type::GetFieldInfo` as used at line 157: the field descriptor for a
valid field id. -/
def getFieldInfo (fields : List (String × Bool)) (id : Int) : String × Bool :=
  fields.getD id.toNat ("", false)

/-- `kv.first.SubStr(0, kv.first.FindFirstOf("."))` at line 152: the part of
a dotted attribute key before the first dot (the whole key when it has no
dot, since `FindFirstOf` then yields `NPos`). -/
def attrKeyBase (k : String) : String :=
  String.mk (k.toList.takeWhile (fun c => c ≠ '.'))

/-- The validation loop of `CreateObjectConfig` (lines 150-161): scan the
attribute pairs in order and report the first offending key, or `none` when
all keys pass. -/
def validateAttrs (type : ObjType) : List (String × String) → Option String
  | [] => none
  | (k, _) :: rest =>
    let fid := getFieldId type.fields (attrKeyBase k)
    if fid < 0 then
      some ("Invalid attribute specified: " ++ k)
    else if !(getFieldInfo type.fields fid).2 || k == "name" then
      some ("Attribute is marked for internal use only and may not be set: " ++ k)
    else
      validateAttrs type rest

/-- `Dictionary::Get`: last-write-wins lookup in an association list. -/
def dictLookup (d : List (String × String)) (k : String) : Option String :=
  (d.find? (fun kv => kv.1 == k)).map (fun kv => kv.2)

/-- `Dictionary::Remove`: drop a key from an association list. -/
def dictRemove (d : List (String × String)) (k : String) : List (String × String) :=
  d.filter (fun kv => kv.1 != k)

/-- `Dictionary::Set`: overwrite-or-append a key in an association list. -/
def dictSet (d : List (String × String)) (k v : String) : List (String × String) :=
  dictRemove d k ++ [(k, v)]

/-- `Dictionary::CopyTo`: copy every pair of `src` into `dst`, overwriting. -/
def dictMerge (dst src : List (String × String)) : List (String × String) :=
  src.foldl (fun acc kv => dictSet acc kv.1 kv.2) dst

/-- Modelled from the spec: the Renderer collaborator
(`ConfigWriter::EmitConfigItem`, base/configwriter.cpp, not under src/)
renders the type name, object name, template list and attributes into one
declarative source declaration. -/
def EmitConfigItem (typeName objName : String) (ignoreOnError : Bool)
    (templates : List String) (attrs : List (String × String)) : String :=
  "object " ++ typeName ++ " \"" ++ objName ++ "\"" ++
    (if ignoreOnError then " ignore_on_error" else "") ++ " \x7b\n" ++
    String.join (templates.map (fun t => "\timport \"" ++ t ++ "\"\n")) ++
    String.join (attrs.map (fun kv => "\t" ++ kv.1 ++ " = \"" ++ kv.2 ++ "\"\n")) ++
    "\x7d\n"

/-- `ConfigObjectUtility::CreateObjectConfig` (lines 132-177).  `nameParts`
is the result of `NameComposer::ParseName(fullName)` when the type is a
`NameComposer` (`some`), and `none` when it is not; `version` stands for
the `Utility::GetTime()` stamp written at line 170.  A `ScriptError` thrown
by the validation loop is the `.error` case.  The trailing
`ConfigWriter::EmitRaw(config, "\n")` of line 174 is the appended newline. -/
def ConfigObjectUtility.CreateObjectConfig (type : ObjType) (fullName : String)
    (nameParts : Option (List (String × String))) (ignoreOnError : Bool)
    (templates : List String) (attrs : Option (List (String × String)))
    (version : String) : Except String String :=
  let name :=
    match nameParts with
    | some parts => (dictLookup parts "name").getD ""
    | none => fullName
  let validation :=
    match attrs with
    | some givenAttrs => validateAttrs type givenAttrs
    | none => none
  match validation with
  | some msg => .error msg
  | none =>
    let allAttrs := (attrs.getD [])
    let allAttrs :=
      match nameParts with
      | some parts => dictMerge allAttrs parts
      | none => allAttrs
    let allAttrs := dictRemove allAttrs "name"
    let allAttrs := dictSet allAttrs "version" version
    .ok (EmitConfigItem type.name name ignoreOnError templates allAttrs ++ "\n")

/-- Modelled from the spec: the API create action (its handler is not under
src/) renders the declaration via `CreateObjectConfig` and invokes
`CreateObject` only when rendering succeeded; a rendering failure is
reported as a failed creation before any disk write (spec 4.3: validation
runs to completion before any disk write, fail fast, no partial effects). -/
def renderAndCreate (sha1Hex : String → String) (e : CreateEnv)
    (nameParts : Option (List (String × String))) (ignoreOnError : Bool)
    (templates : List String) (attrs : Option (List (String × String)))
    (version : String) : CreateOutcome :=
  match ConfigObjectUtility.CreateObjectConfig e.type e.fullName nameParts
      ignoreOnError templates attrs version with
  | .error msg =>
    { emptyOutcome with result := .ret false, errors := [msg] }
  | .ok cfg =>
    ConfigObjectUtility.CreateObject sha1Hex { e with config := cfg }

/-- An attribute key the validation loop of `CreateObjectConfig` must
reject: it names no field of the type, or a field whose `FAConfig` flag is
clear, or it is the synthetic key `name`. -/
def invalidAttrKey (type : ObjType) (k : String) : Prop :=
  getFieldId type.fields (attrKeyBase k) < 0 ∨
  (getFieldInfo type.fields (getFieldId type.fields (attrKeyBase k))).2 = false ∨
  k = "name"

instance (type : ObjType) (k : String) : Decidable (invalidAttrKey type k) := by
  unfold invalidAttrKey; infer_instance

/-- One registered config object as seen by `DeleteObjectHelper`:
`GetName()`, `GetReflectionType()->GetName()`, `GetPackage()`, the path
reported by `GetDebugInfo().Path` (used by `GetExistingObjectConfigPath`,
lines 66-69), and an oracle saying whether the deactivate/unregister block
of lines 336-351 throws for this object (`exMsg` is its diagnostic). -/
structure ObjInfo where
  name : String
  typeName : String
  package : String
  filePath : String
  deactivateThrows : Bool
  exMsg : String
deriving Repr, DecidableEq

/-- The dependency graph rooted at one object, as `DependencyGraph::GetParents`
reveals it: each node carries its object and the list of objects that depend
on it (the source's `parents`).  The relation is assumed acyclic, which the
tree encoding makes structural; every dependent is a config object (the
`dynamic_pointer_cast` at line 326 never fails in the model). -/
inductive DepTree where
  | node (info : ObjInfo) (deps : List DepTree)

/-- The object at the root of a dependency tree. -/
def DepTree.info : DepTree → ObjInfo
  | .node i _ => i

/-- The direct dependents of the root object. -/
def DepTree.directDeps : DepTree → List DepTree
  | .node _ ds => ds

mutual
/-- All objects appearing in a dependency tree. -/
def DepTree.infos : DepTree → List ObjInfo
  | .node i ds => i :: depForestInfos ds

/-- All objects appearing in a list of dependency trees. -/
def depForestInfos : List DepTree → List ObjInfo
  | [] => []
  | t :: ts => t.infos ++ depForestInfos ts
end

/-- Mutable context threaded through a delete call: the caller-provided
`errors` and `diagnosticInformation` arrays and the external effects the
source performs, in order of occurrence — `SetExtension("ConfigObjectDeleted")`
marks (`marked`), `Deactivate` calls (`deactivated`), `item->Unregister()` /
`object->Unregister()` calls (`unregistered`), `Utility::Remove` calls
(`removedFiles`), and log lines. -/
structure DeleteState where
  errors : List String
  diags : List String
  marked : List String
  deactivated : List String
  unregistered : List String
  removedFiles : List String
  logs : List (LogSeverity × String)
deriving Repr, DecidableEq

/-- The empty delete context: fresh output arrays, no effects yet. -/
def emptyDeleteState : DeleteState where
  errors := []
  diags := []
  marked := []
  deactivated := []
  unregistered := []
  removedFiles := []
  logs := []

/-- The blocking-dependents message built at lines 317-319. -/
def dependencyErrorMsg (i : ObjInfo) : String :=
  "Object \x27" ++ i.name ++ "\x27 of type \x27" ++ i.typeName ++
    "\x27 cannot be deleted because other objects depend on it. " ++
    "Use cascading delete to delete it anyway."

mutual
/-- `ConfigObjectUtility::DeleteObjectHelper` (lines 306-370).  The tree
argument bundles the object with the `DependencyGraph::GetParents` answer
for it and, recursively, for its dependents. -/
def ConfigObjectUtility.DeleteObjectHelper :
    DepTree → Bool → DeleteState → Bool × DeleteState
  | .node info deps, cascade, st =>
    if !deps.isEmpty && !cascade then
      (false, { st with errors := st.errors ++ [dependencyErrorMsg info] })
    else
      let st1 := ConfigObjectUtility.DeleteParents deps cascade st
      -- try block, lines 336-351: mark, deactivate, unregister
      let st2 := { st1 with marked := st1.marked ++ [info.name] }
      if info.deactivateThrows then
        (false, { st2 with
            errors := st2.errors ++ [info.exMsg]
            diags := st2.diags ++ [info.exMsg] })
      else
        let st3 := { st2 with
            deactivated := st2.deactivated ++ [info.name]
            unregistered := st2.unregistered ++ [info.name] }
        let st4 :=
          if info.package == "_api" then
            { st3 with removedFiles := st3.removedFiles ++ [info.filePath] }
          else
            st3
        (true, { st4 with logs := st4.logs ++
            [(LogSeverity.LogInformation,
              "Deleted object \x27" ++ info.name ++ "\x27 of type \x27" ++
                info.typeName ++ "\x27.")] })

/-- The recursion loop of lines 325-332: delete each dependent in turn,
discarding the boolean result of every recursive call. -/
def ConfigObjectUtility.DeleteParents :
    List DepTree → Bool → DeleteState → DeleteState
  | [], _, st => st
  | t :: ts, cascade, st =>
    ConfigObjectUtility.DeleteParents ts cascade
      (ConfigObjectUtility.DeleteObjectHelper t cascade st).2
end

/-- `ConfigObjectUtility::DeleteObject` (lines 372-383): the ownership check
on the root object, then the helper. -/
def ConfigObjectUtility.DeleteObject (object : DepTree) (cascade : Bool)
    (st : DeleteState) : Bool × DeleteState :=
  if object.info.package != "_api" then
    (false, { st with errors := st.errors ++
        ["Object cannot be deleted because it was not created using the API."] })
  else
    ConfigObjectUtility.DeleteObjectHelper object cascade st

/-- One delete context grows into another: the output arrays and the
per-effect lists are only ever appended to. -/
def DeleteState.Grows (a b : DeleteState) : Prop :=
  (∃ x, b.errors = a.errors ++ x) ∧
  (∃ x, b.deactivated = a.deactivated ++ x) ∧
  (∃ x, b.unregistered = a.unregistered ++ x) ∧
  (∃ x, b.removedFiles = a.removedFiles ++ x)

/-- A Host-like reflection type used for concrete evaluations. -/
def hostType : ObjType where
  name := "Host"
  pluralName := "Hosts"
  fields := [("check_command", true), ("zone", true), ("notes", false)]

/-- A 300-character object name, long enough that the file name derived
from it exceeds the 255-byte file-name limit of common filesystems. -/
def longName : String := String.mk (List.replicate 300 'a')

/-- A create call whose external steps all succeed. -/
def envSuccess : CreateEnv where
  type := hostType
  fullName := "h1"
  config := ""
  packageDir := "/p"
  activeStage := "s"
  foundStage := none
  alreadyExists := false
  flushThrows := false
  flushExMsg := "io error"
  evalThrows := false
  evalExMsg := "eval error"
  commitOk := true
  upqExMsgs := ["commit failure diagnostics"]
  activateOk := true
  filtered := false

/-- A create call whose `ConfigItem::CommitItems` step fails. -/
def envCommitFail : CreateEnv := { envSuccess with commitOk := false }

/-- A create call where the object is already registered. -/
def envExists : CreateEnv := { envSuccess with alreadyExists := true }

/-- A create call where commit and activation succeed but the final
registry re-query finds nothing. -/
def envFiltered : CreateEnv := { envSuccess with filtered := true }

/-- A target object provisioned through the `_api` package whose own
deactivation succeeds. -/
def infoA : ObjInfo where
  name := "a"
  typeName := "Host"
  package := "_api"
  filePath := "/p/_api/s/conf.d/hosts/a.conf"
  deactivateThrows := false
  exMsg := "unused"

/-- A dependent whose deactivation throws. -/
def infoB : ObjInfo where
  name := "b"
  typeName := "Service"
  package := "_api"
  filePath := "/p/_api/s/conf.d/services/b.conf"
  deactivateThrows := true
  exMsg := "deactivation of b failed"

/-- A dependent provisioned outside the `_api` package. -/
def infoC : ObjInfo where
  name := "c"
  typeName := "Service"
  package := "etc"
  filePath := "/etc/icinga2/conf.d/services/c.conf"
  deactivateThrows := false
  exMsg := "unused"

/-- Object `a` with one failing dependent `b`. -/
def treeAB : DepTree := .node infoA [.node infoB []]

/-- Object `a` with a dependent `c` provisioned outside `_api`. -/
def treeAC : DepTree := .node infoA [.node infoC []]

/-- C2, counterexample: for the non-exempted type `Host` and a
300-character name the derived file name is 305 bytes — beyond the 255-byte
file-name limit of common filesystems — yet `ComputeNewObjectConfigPath`
succeeds and returns the over-long path instead of failing with a
path error. -/
theorem computePath_overlong_returned_silently :
    ConfigObjectUtility.ComputeNewObjectConfigPath (fun _ => "") "/p" "s" none
        hostType longName
      = Except.ok ("/p/_api/s/conf.d/hosts/" ++
          ConfigObjectUtility.EscapeName longName ++ ".conf") ∧
    255 < (ConfigObjectUtility.EscapeName longName ++ ".conf").length := by
  constructor
  · rfl
  · decide

/-- C2, amended: for every type other than `Comment` and `Downtime` (and a
recorded active stage), `ComputeNewObjectConfigPath` returns
prefix + escapedName + ".conf" with the full escaped name untruncated,
unconditionally — the function performs no filesystem-limit check and
returns over-long paths as-is. -/
theorem computePath_nonexempt_untruncated (sha1Hex : String → String)
    (packageDir activeStage : String) (foundStage : Option String)
    (type : ObjType) (fullName : String)
    (hstage : activeStage.isEmpty = false)
    (hc : type.name ≠ "Comment") (hd : type.name ≠ "Downtime") :
    ConfigObjectUtility.ComputeNewObjectConfigPath sha1Hex packageDir activeStage
        foundStage type fullName
      = Except.ok (packageDir ++ "/_api/" ++ activeStage ++ "/conf.d/" ++
          strToLower type.pluralName ++ "/" ++
          ConfigObjectUtility.EscapeName fullName ++ ".conf") := by
  unfold ConfigObjectUtility.ComputeNewObjectConfigPath ConfigObjectUtility.GetConfigDir
  simp [hstage, hc, hd]

/-- Witness for `computePath_nonexempt_untruncated` at the type `Host` and
the name `h1`. -/
theorem computePath_nonexempt_untruncated_witness :
    ConfigObjectUtility.ComputeNewObjectConfigPath (fun _ => "") "/p" "s" none
        hostType "h1"
      = Except.ok ("/p" ++ "/_api/" ++ "s" ++ "/conf.d/" ++
          strToLower hostType.pluralName ++ "/" ++
          ConfigObjectUtility.EscapeName "h1" ++ ".conf") :=
  computePath_nonexempt_untruncated (fun _ => "") "/p" "s" none hostType "h1"
    rfl (by decide) (by decide)

/-- C4: when `GetActiveStage` comes back empty and the self-heal adopts a
found stage, `GetConfigDir` still returns the directory built from the
stale empty stage variable — for every adopted stage name the returned
directory is just `<packageRoot>/_api/` without the stage component, and
the path computed for a new Host on that very call lacks the stage
component as well. -/
theorem getConfigDir_selfheal_drops_adopted_stage :
    (∀ s : String,
      ConfigObjectUtility.GetConfigDir "/p" "" (some s) = Except.ok "/p/_api/") ∧
    ConfigObjectUtility.ComputeNewObjectConfigPath (fun _ => "") "/p" ""
        (some "stage1") hostType "h1"
      = Except.ok "/p/_api//conf.d/hosts/h1.conf" :=
  ⟨fun _ => rfl, rfl⟩

/-- Every `CreateObject` call that returns false commits nothing: the
destination file was never put in place, no runtime object is registered,
and a pending write, when one was opened, has been released. -/
theorem CreateObject_ret_false_state (sha1Hex : String → String) (e : CreateEnv)
    (h : (ConfigObjectUtility.CreateObject sha1Hex e).result = CallResult.ret false) :
    (ConfigObjectUtility.CreateObject sha1Hex e).filesCreated = [] ∧
    (ConfigObjectUtility.CreateObject sha1Hex e).tempCommitted = false ∧
    (ConfigObjectUtility.CreateObject sha1Hex e).registered = false ∧
    ((ConfigObjectUtility.CreateObject sha1Hex e).tempOpened.isSome = true →
      (ConfigObjectUtility.CreateObject sha1Hex e).tempReleased = true) := by
  cases h1 : e.alreadyExists <;>
    cases h2 : ConfigObjectUtility.ComputeNewObjectConfigPath sha1Hex e.packageDir
      e.activeStage e.foundStage e.type e.fullName <;>
    cases h3 : e.flushThrows <;> cases h4 : e.evalThrows <;> cases h5 : e.commitOk <;>
    cases h6 : e.activateOk <;> cases h7 : e.filtered <;>
    simp_all [ConfigObjectUtility.CreateObject, emptyOutcome]

/-- On every exit path of `CreateObject` the pending temp write is released
exactly when one was opened and not explicitly committed. -/
theorem CreateObject_release_invariant (sha1Hex : String → String) (e : CreateEnv) :
    (ConfigObjectUtility.CreateObject sha1Hex e).tempReleased
      = ((ConfigObjectUtility.CreateObject sha1Hex e).tempOpened.isSome &&
         !(ConfigObjectUtility.CreateObject sha1Hex e).tempCommitted) := by
  cases h1 : e.alreadyExists <;>
    cases h2 : ConfigObjectUtility.ComputeNewObjectConfigPath sha1Hex e.packageDir
      e.activeStage e.foundStage e.type e.fullName <;>
    cases h3 : e.flushThrows <;> cases h4 : e.evalThrows <;> cases h5 : e.commitOk <;>
    cases h6 : e.activateOk <;> cases h7 : e.filtered <;>
    simp_all [ConfigObjectUtility.CreateObject, emptyOutcome]

/-- C1: every create attempt that fails — a rendering failure, or
`CreateObject` returning false for any step after the already-exists check —
leaves no file at the computed destination path and no registered runtime
object for (type, fullName), and any opened pending temp write has been
released rather than committed; moreover, on every exit path of
`CreateObject`, failing or not, the pending write is released exactly when
it was opened and not explicitly committed. -/
theorem createObject_failed_attempt_atomic (sha1Hex : String → String)
    (e : CreateEnv) (nameParts : Option (List (String × String)))
    (ignoreOnError : Bool) (templates : List String)
    (attrs : Option (List (String × String))) (version : String)
    (o : CreateOutcome)
    (ho : o = renderAndCreate sha1Hex e nameParts ignoreOnError templates attrs version)
    (h : o.result = CallResult.ret false) :
    (o.filesCreated = [] ∧ o.tempCommitted = false ∧ o.registered = false ∧
      (o.tempOpened.isSome = true → o.tempReleased = true)) ∧
    (∀ e2 : CreateEnv, (ConfigObjectUtility.CreateObject sha1Hex e2).tempReleased
      = ((ConfigObjectUtility.CreateObject sha1Hex e2).tempOpened.isSome &&
         !(ConfigObjectUtility.CreateObject sha1Hex e2).tempCommitted)) := by
  refine ⟨?_, fun e2 => CreateObject_release_invariant sha1Hex e2⟩
  subst ho
  cases hcfg : ConfigObjectUtility.CreateObjectConfig e.type e.fullName nameParts
      ignoreOnError templates attrs version with
  | error msg =>
    simp only [renderAndCreate, hcfg] at h ⊢
    simp [emptyOutcome]
  | ok cfg =>
    simp only [renderAndCreate, hcfg] at h ⊢
    exact CreateObject_ret_false_state sha1Hex _ h

/-- Witness for `createObject_failed_attempt_atomic`: a create whose commit
step fails returns false with no file, no registration. -/
theorem createObject_failed_attempt_atomic_witness :
    (renderAndCreate (fun _ => "") envCommitFail none false []
        (some [("check_command", "ping")]) "100").result = CallResult.ret false ∧
    (renderAndCreate (fun _ => "") envCommitFail none false []
        (some [("check_command", "ping")]) "100").filesCreated = [] ∧
    (renderAndCreate (fun _ => "") envCommitFail none false []
        (some [("check_command", "ping")]) "100").registered = false :=
  ⟨rfl,
   (createObject_failed_attempt_atomic (fun _ => "") envCommitFail none false []
      (some [("check_command", "ping")]) "100" _ rfl rfl).1.1,
   (createObject_failed_attempt_atomic (fun _ => "") envCommitFail none false []
      (some [("check_command", "ping")]) "100" _ rfl rfl).1.2.2.1⟩

/-- C7: when the object is already registered, `CreateObject` reports
exactly the already-exists error and returns false with no disk effect: no
destination path computed, no directory created, no pending write opened,
no file persisted. -/
theorem createObject_already_exists_no_io (sha1Hex : String → String)
    (e : CreateEnv) (h : e.alreadyExists = true) :
    (ConfigObjectUtility.CreateObject sha1Hex e).result = CallResult.ret false ∧
    (ConfigObjectUtility.CreateObject sha1Hex e).errors
      = ["Object \x27" ++ e.fullName ++ "\x27 already exists."] ∧
    (ConfigObjectUtility.CreateObject sha1Hex e).pathComputed = none ∧
    (ConfigObjectUtility.CreateObject sha1Hex e).dirsCreated = [] ∧
    (ConfigObjectUtility.CreateObject sha1Hex e).tempOpened = none ∧
    (ConfigObjectUtility.CreateObject sha1Hex e).filesCreated = [] := by
  simp [ConfigObjectUtility.CreateObject, h, emptyOutcome]

/-- Witness for `createObject_already_exists_no_io` at `envExists`. -/
theorem createObject_already_exists_no_io_witness :
    (ConfigObjectUtility.CreateObject (fun _ => "") envExists).result
      = CallResult.ret false ∧
    (ConfigObjectUtility.CreateObject (fun _ => "") envExists).errors
      = ["Object \x27h1\x27 already exists."] ∧
    (ConfigObjectUtility.CreateObject (fun _ => "") envExists).tempOpened = none :=
  ⟨(createObject_already_exists_no_io (fun _ => "") envExists rfl).1,
   (createObject_already_exists_no_io (fun _ => "") envExists rfl).2.1,
   (createObject_already_exists_no_io (fun _ => "") envExists rfl).2.2.2.2.1⟩

/-- C3: when commit and activation report success but the final registry
re-query finds no object, `CreateObject` discards the pending write (the
destination file is never created), returns true, adds nothing to the
errors array, and records only the notice log line. -/
theorem createObject_filtered_reports_success (sha1Hex : String → String)
    (e : CreateEnv)
    (h1 : e.alreadyExists = false) (h2 : e.activeStage.isEmpty = false)
    (h3 : e.flushThrows = false) (h4 : e.evalThrows = false)
    (h5 : e.commitOk = true) (h6 : e.activateOk = true) (h7 : e.filtered = true) :
    (ConfigObjectUtility.CreateObject sha1Hex e).result = CallResult.ret true ∧
    (ConfigObjectUtility.CreateObject sha1Hex e).tempCommitted = false ∧
    (ConfigObjectUtility.CreateObject sha1Hex e).filesCreated = [] ∧
    (ConfigObjectUtility.CreateObject sha1Hex e).tempReleased = true ∧
    (ConfigObjectUtility.CreateObject sha1Hex e).registered = false ∧
    (ConfigObjectUtility.CreateObject sha1Hex e).errors = [] ∧
    (ConfigObjectUtility.CreateObject sha1Hex e).logs = [(LogSeverity.LogNotice,
      "Object \x27" ++ e.fullName ++ "\x27 was not created but ignored due to errors.")] := by
  obtain ⟨p, hp⟩ : ∃ p, ConfigObjectUtility.ComputeNewObjectConfigPath sha1Hex
      e.packageDir e.activeStage e.foundStage e.type e.fullName = Except.ok p := by
    unfold ConfigObjectUtility.ComputeNewObjectConfigPath ConfigObjectUtility.GetConfigDir
    simp [h2]
    split <;> exact ⟨_, rfl⟩
  simp [ConfigObjectUtility.CreateObject, hp, h1, h3, h4, h5, h6, h7, emptyOutcome]

/-- Witness for `createObject_filtered_reports_success` at `envFiltered`. -/
theorem createObject_filtered_reports_success_witness :
    (ConfigObjectUtility.CreateObject (fun _ => "") envFiltered).result
      = CallResult.ret true ∧
    (ConfigObjectUtility.CreateObject (fun _ => "") envFiltered).tempCommitted = false ∧
    (ConfigObjectUtility.CreateObject (fun _ => "") envFiltered).errors = [] :=
  ⟨(createObject_filtered_reports_success (fun _ => "") envFiltered
      rfl rfl rfl rfl rfl rfl rfl).1,
   (createObject_filtered_reports_success (fun _ => "") envFiltered
      rfl rfl rfl rfl rfl rfl rfl).2.1,
   (createObject_filtered_reports_success (fun _ => "") envFiltered
      rfl rfl rfl rfl rfl rfl rfl).2.2.2.2.2.1⟩

/-- C8, counterexample: the successful create at `envSuccess` persists the
config file with mode 0644; the group/other permission bits (the mode
modulo 64) are not zero, so the file is not restricted to its owner. -/
theorem createObject_file_mode_not_owner_only :
    (ConfigObjectUtility.CreateObject (fun _ => "") envSuccess).filesCreated
      = [("/p/_api/s/conf.d/hosts/h1.conf", 0o644)] ∧
    ¬ (0o644 % 64 = 0) :=
  ⟨rfl, by decide⟩

/-- C8, amended: every file a create persists is created with mode 0644
(owner read/write, group and others read-only) and every directory created
for it with mode 0700 (owner-traversable only). -/
theorem createObject_modes_0644_0700 (sha1Hex : String → String) (e : CreateEnv) :
    (∀ pm ∈ (ConfigObjectUtility.CreateObject sha1Hex e).filesCreated,
      pm.2 = 0o644) ∧
    (∀ dm ∈ (ConfigObjectUtility.CreateObject sha1Hex e).dirsCreated,
      dm.2 = 0o700) := by
  cases h1 : e.alreadyExists <;>
    cases h2 : ConfigObjectUtility.ComputeNewObjectConfigPath sha1Hex e.packageDir
      e.activeStage e.foundStage e.type e.fullName <;>
    cases h3 : e.flushThrows <;> cases h4 : e.evalThrows <;> cases h5 : e.commitOk <;>
    cases h6 : e.activateOk <;> cases h7 : e.filtered <;>
    simp_all [ConfigObjectUtility.CreateObject, emptyOutcome]

/-- Witness for `createObject_modes_0644_0700` at `envSuccess`. -/
theorem createObject_modes_0644_0700_witness :
    ("/p/_api/s/conf.d/hosts/h1.conf", (0o644 : Nat)) ∈
      (ConfigObjectUtility.CreateObject (fun _ => "") envSuccess).filesCreated ∧
    (("/p/_api/s/conf.d/hosts/h1.conf", (0o644 : Nat))).2 = 0o644 :=
  ⟨by decide,
   (createObject_modes_0644_0700 (fun _ => "") envSuccess).1 _ (by decide)⟩

/-- Growth is reflexive. -/
theorem DeleteState.Grows.rfl (a : DeleteState) : a.Grows a :=
  ⟨⟨[], by simp⟩, ⟨[], by simp⟩, ⟨[], by simp⟩, ⟨[], by simp⟩⟩

/-- Growth is transitive. -/
theorem DeleteState.Grows.trans {a b c : DeleteState}
    (h1 : a.Grows b) (h2 : b.Grows c) : a.Grows c := by
  obtain ⟨⟨x1, e1⟩, ⟨x2, e2⟩, ⟨x3, e3⟩, ⟨x4, e4⟩⟩ := h1
  obtain ⟨⟨y1, f1⟩, ⟨y2, f2⟩, ⟨y3, f3⟩, ⟨y4, f4⟩⟩ := h2
  exact ⟨⟨x1 ++ y1, by simp [f1, e1]⟩, ⟨x2 ++ y2, by simp [f2, e2]⟩,
    ⟨x3 ++ y3, by simp [f3, e3]⟩, ⟨x4 ++ y4, by simp [f4, e4]⟩⟩

/-- Growth preserves membership in the deactivated list. -/
theorem DeleteState.Grows.mem_deactivated {a b : DeleteState} (h : a.Grows b)
    {x : String} (hx : x ∈ a.deactivated) : x ∈ b.deactivated := by
  obtain ⟨_, ⟨l, hl⟩, _, _⟩ := h
  rw [hl]
  exact List.mem_append_left _ hx

/-- Growth preserves membership in the unregistered list. -/
theorem DeleteState.Grows.mem_unregistered {a b : DeleteState} (h : a.Grows b)
    {x : String} (hx : x ∈ a.unregistered) : x ∈ b.unregistered := by
  obtain ⟨_, _, ⟨l, hl⟩, _⟩ := h
  rw [hl]
  exact List.mem_append_left _ hx

mutual
/-- A `DeleteObjectHelper` call only ever appends to the output arrays and
to the effect lists of its context. -/
theorem DeleteObjectHelper_grows (t : DepTree) (c : Bool) (st : DeleteState) :
    st.Grows (ConfigObjectUtility.DeleteObjectHelper t c st).2 := by
  cases t with
  | node info deps =>
    unfold ConfigObjectUtility.DeleteObjectHelper
    cases hb : (!deps.isEmpty && !c) with
    | true =>
      simp only [hb, if_true]
      exact ⟨⟨[dependencyErrorMsg info], by simp⟩, ⟨[], by simp⟩,
        ⟨[], by simp⟩, ⟨[], by simp⟩⟩
    | false =>
      simp only [hb, Bool.false_eq_true, if_false]
      refine DeleteState.Grows.trans (DeleteParents_grows deps c st) ?_
      cases hd : info.deactivateThrows with
      | true =>
        simp only [hd, if_true]
        exact ⟨⟨[info.exMsg], by simp⟩, ⟨[], by simp⟩, ⟨[], by simp⟩, ⟨[], by simp⟩⟩
      | false =>
        simp only [hd, Bool.false_eq_true, if_false]
        cases hp : (info.package == "_api") with
        | true =>
          simp only [hp, if_true]
          exact ⟨⟨[], by simp⟩, ⟨[info.name], by simp⟩, ⟨[info.name], by simp⟩,
            ⟨[info.filePath], by simp⟩⟩
        | false =>
          simp only [hp, Bool.false_eq_true, if_false]
          exact ⟨⟨[], by simp⟩, ⟨[info.name], by simp⟩, ⟨[info.name], by simp⟩,
            ⟨[], by simp⟩⟩

/-- A `DeleteParents` loop only ever appends to the context. -/
theorem DeleteParents_grows (ts : List DepTree) (c : Bool) (st : DeleteState) :
    st.Grows (ConfigObjectUtility.DeleteParents ts c st) := by
  cases ts with
  | nil => exact DeleteState.Grows.rfl st
  | cons t ts =>
    unfold ConfigObjectUtility.DeleteParents
    exact DeleteState.Grows.trans (DeleteObjectHelper_grows t c st)
      (DeleteParents_grows ts c (ConfigObjectUtility.DeleteObjectHelper t c st).2)
end

/-- A cascading delete of a node whose own deactivation does not throw
succeeds and processes the node itself: it is deactivated and unregistered,
and its file is removed when it belongs to the `_api` package — no matter
what happened while deleting its dependents. -/
theorem DeleteObjectHelper_cascade_self (info : ObjInfo) (deps : List DepTree)
    (st : DeleteState) (h : info.deactivateThrows = false) :
    (ConfigObjectUtility.DeleteObjectHelper (DepTree.node info deps) true st).1
      = true ∧
    info.name ∈ (ConfigObjectUtility.DeleteObjectHelper (DepTree.node info deps)
      true st).2.deactivated ∧
    info.name ∈ (ConfigObjectUtility.DeleteObjectHelper (DepTree.node info deps)
      true st).2.unregistered ∧
    (info.package = "_api" →
      info.filePath ∈ (ConfigObjectUtility.DeleteObjectHelper (DepTree.node info deps)
        true st).2.removedFiles) := by
  by_cases hp : (info.package == "_api") = true
  · unfold ConfigObjectUtility.DeleteObjectHelper
    simp [h, hp]
  · unfold ConfigObjectUtility.DeleteObjectHelper
    simp only [Bool.not_eq_true] at hp
    simp [h, hp]
    intro hpkg
    rw [hpkg] at hp
    simp at hp

/-- The state a cascading delete of a node leaves behind grows out of the
state left by the recursion over its dependents. -/
theorem DeleteObjectHelper_grows_from_parents (info : ObjInfo)
    (deps : List DepTree) (st : DeleteState) :
    (ConfigObjectUtility.DeleteParents deps true st).Grows
      (ConfigObjectUtility.DeleteObjectHelper (DepTree.node info deps) true st).2 := by
  unfold ConfigObjectUtility.DeleteObjectHelper
  simp only [Bool.not_true, Bool.and_false, Bool.false_eq_true, if_false]
  cases hd : info.deactivateThrows with
  | true =>
    simp only [hd, if_true]
    exact ⟨⟨[info.exMsg], by simp⟩, ⟨[], by simp⟩, ⟨[], by simp⟩, ⟨[], by simp⟩⟩
  | false =>
    simp only [hd, Bool.false_eq_true, if_false]
    cases hp : (info.package == "_api") with
    | true =>
      simp only [hp, if_true]
      exact ⟨⟨[], by simp⟩, ⟨[info.name], by simp⟩, ⟨[info.name], by simp⟩,
        ⟨[info.filePath], by simp⟩⟩
    | false =>
      simp only [hp, Bool.false_eq_true, if_false]
      exact ⟨⟨[], by simp⟩, ⟨[info.name], by simp⟩, ⟨[info.name], by simp⟩,
        ⟨[], by simp⟩⟩

/-- Every dependent appearing in a `DeleteParents` loop with cascade whose
own deactivation does not throw ends up deactivated and unregistered. -/
theorem DeleteParents_mem_processed (ts : List DepTree) (st : DeleteState)
    (d : DepTree) (hd : d ∈ ts) (hthrow : d.info.deactivateThrows = false) :
    d.info.name ∈ (ConfigObjectUtility.DeleteParents ts true st).deactivated ∧
    d.info.name ∈ (ConfigObjectUtility.DeleteParents ts true st).unregistered := by
  revert hd
  induction ts generalizing st with
  | nil => intro hd; cases hd
  | cons t ts ih =>
    intro hd
    unfold ConfigObjectUtility.DeleteParents
    rcases List.mem_cons.mp hd with heq | htail
    · subst heq
      cases d with
      | node i ds =>
        simp only [DepTree.info] at hthrow
        have hself := DeleteObjectHelper_cascade_self i ds st hthrow
        have hgrow := DeleteParents_grows ts true
          (ConfigObjectUtility.DeleteObjectHelper (DepTree.node i ds) true st).2
        exact ⟨hgrow.mem_deactivated hself.2.1, hgrow.mem_unregistered hself.2.2.1⟩
    · exact ih (ConfigObjectUtility.DeleteObjectHelper t true st).2 htail

mutual
/-- Every file a `DeleteObjectHelper` call removes either was already
recorded as removed, or belongs to an object of the processed tree whose
package is `_api`. -/
theorem DeleteObjectHelper_removed_api (t : DepTree) (c : Bool) (st : DeleteState) :
    ∀ p ∈ (ConfigObjectUtility.DeleteObjectHelper t c st).2.removedFiles,
      p ∈ st.removedFiles ∨ ∃ i ∈ t.infos, i.package = "_api" ∧ i.filePath = p := by
  cases t with
  | node info deps =>
    intro p hp
    unfold ConfigObjectUtility.DeleteObjectHelper at hp
    cases hb : (!deps.isEmpty && !c) with
    | true =>
      simp [hb] at hp
      exact Or.inl hp
    | false =>
      simp only [hb, Bool.false_eq_true, if_false] at hp
      cases hd : info.deactivateThrows with
      | true =>
        simp only [hd, if_true] at hp
        rcases DeleteParents_removed_api deps c st p (by simpa using hp) with
          h1 | ⟨i, hi, hapi, hfp⟩
        · exact Or.inl h1
        · refine Or.inr ⟨i, ?_, hapi, hfp⟩
          simp only [DepTree.infos, List.mem_cons]
          exact Or.inr hi
      | false =>
        simp only [hd, Bool.false_eq_true, if_false] at hp
        cases hpk : (info.package == "_api") with
        | true =>
          simp only [hpk, if_true] at hp
          simp only [List.mem_append, List.mem_singleton] at hp
          rcases hp with hp | hp
          · rcases DeleteParents_removed_api deps c st p (by simpa using hp) with
              h1 | ⟨i, hi, hapi, hfp⟩
            · exact Or.inl h1
            · refine Or.inr ⟨i, ?_, hapi, hfp⟩
              simp only [DepTree.infos, List.mem_cons]
              exact Or.inr hi
          · refine Or.inr ⟨info, ?_, ?_, hp.symm⟩
            · simp [DepTree.infos]
            · simpa using hpk
        | false =>
          simp only [hpk, Bool.false_eq_true, if_false] at hp
          rcases DeleteParents_removed_api deps c st p (by simpa using hp) with
            h1 | ⟨i, hi, hapi, hfp⟩
          · exact Or.inl h1
          · refine Or.inr ⟨i, ?_, hapi, hfp⟩
            simp only [DepTree.infos, List.mem_cons]
            exact Or.inr hi

/-- Every file a `DeleteParents` loop removes either was already recorded,
or belongs to an `_api`-package object of one of the processed trees. -/
theorem DeleteParents_removed_api (ts : List DepTree) (c : Bool) (st : DeleteState) :
    ∀ p ∈ (ConfigObjectUtility.DeleteParents ts c st).removedFiles,
      p ∈ st.removedFiles ∨
        ∃ i ∈ depForestInfos ts, i.package = "_api" ∧ i.filePath = p := by
  cases ts with
  | nil =>
    intro p hp
    unfold ConfigObjectUtility.DeleteParents at hp
    exact Or.inl hp
  | cons t ts =>
    intro p hp
    unfold ConfigObjectUtility.DeleteParents at hp
    rcases DeleteParents_removed_api ts c
        (ConfigObjectUtility.DeleteObjectHelper t c st).2 p hp with
      h1 | ⟨i, hi, hapi, hfp⟩
    · rcases DeleteObjectHelper_removed_api t c st p h1 with h2 | ⟨i, hi, hapi, hfp⟩
      · exact Or.inl h2
      · refine Or.inr ⟨i, ?_, hapi, hfp⟩
        simp only [depForestInfos, List.mem_append]
        exact Or.inl hi
    · refine Or.inr ⟨i, ?_, hapi, hfp⟩
      simp only [depForestInfos, List.mem_append]
      exact Or.inr hi
end

/-- C5: deleting an object with at least one registered dependent and
cascade=false fails with the dependency error naming the object and its
type, and performs no mutation at all — the resulting context differs from
the incoming one only by the appended error message, so nothing was
deactivated, unregistered or removed from disk. -/
theorem deleteHelper_dependency_error_no_mutation (info : ObjInfo)
    (deps : List DepTree) (st : DeleteState) (hdeps : deps.isEmpty = false) :
    ConfigObjectUtility.DeleteObjectHelper (DepTree.node info deps) false st
      = (false, { st with errors := st.errors ++ [dependencyErrorMsg info] }) := by
  unfold ConfigObjectUtility.DeleteObjectHelper
  simp [hdeps]

/-- Witness for `deleteHelper_dependency_error_no_mutation`: object `a`
with the dependent `b`, cascade off. -/
theorem deleteHelper_dependency_error_no_mutation_witness :
    ConfigObjectUtility.DeleteObjectHelper treeAB false emptyDeleteState
      = (false, { emptyDeleteState with errors := [dependencyErrorMsg infoA] }) :=
  deleteHelper_dependency_error_no_mutation infoA [DepTree.node infoB []]
    emptyDeleteState rfl

/-- C9: in a cascading delete the boolean results of the recursive
dependent deletions are discarded — whatever happened to the dependents,
a target whose own deactivation does not throw yields true, is itself
deactivated and unregistered, has its file removed when it belongs to the
`_api` package, and keeps every error the failed dependents appended, so
the call can report success with a non-empty errors list. -/
theorem deleteHelper_cascade_discards_dependent_results (info : ObjInfo)
    (deps : List DepTree) (st : DeleteState)
    (h : info.deactivateThrows = false) :
    (ConfigObjectUtility.DeleteObjectHelper (DepTree.node info deps) true st).1
      = true ∧
    info.name ∈ (ConfigObjectUtility.DeleteObjectHelper (DepTree.node info deps)
      true st).2.deactivated ∧
    info.name ∈ (ConfigObjectUtility.DeleteObjectHelper (DepTree.node info deps)
      true st).2.unregistered ∧
    (info.package = "_api" →
      info.filePath ∈ (ConfigObjectUtility.DeleteObjectHelper
        (DepTree.node info deps) true st).2.removedFiles) ∧
    (ConfigObjectUtility.DeleteObjectHelper (DepTree.node info deps)
        true st).2.errors
      = (ConfigObjectUtility.DeleteParents deps true st).errors := by
  have hself := DeleteObjectHelper_cascade_self info deps st h
  refine ⟨hself.1, hself.2.1, hself.2.2.1, hself.2.2.2, ?_⟩
  unfold ConfigObjectUtility.DeleteObjectHelper
  simp only [Bool.not_true, Bool.and_false, Bool.false_eq_true, if_false, h]
  cases hp : (info.package == "_api") <;> simp [hp]

/-- Witness for `deleteHelper_cascade_discards_dependent_results`: deleting
`a` cascades into the failing dependent `b`, still returns true, and the
errors array is non-empty. -/
theorem deleteHelper_cascade_discards_dependent_results_witness :
    (ConfigObjectUtility.DeleteObjectHelper treeAB true emptyDeleteState).1
      = true ∧
    "a" ∈ (ConfigObjectUtility.DeleteObjectHelper treeAB true
      emptyDeleteState).2.unregistered ∧
    (ConfigObjectUtility.DeleteObjectHelper treeAB true emptyDeleteState).2.errors
      = ["deactivation of b failed"] :=
  ⟨(deleteHelper_cascade_discards_dependent_results infoA [DepTree.node infoB []]
      emptyDeleteState rfl).1,
   (deleteHelper_cascade_discards_dependent_results infoA [DepTree.node infoB []]
      emptyDeleteState rfl).2.2.1,
   by decide⟩

/-- C10: the `_api`-ownership precondition is checked only for the root
object of a delete — `DeleteObject` rejects a root provisioned outside the
managed package without any mutation, while inside a cascade every
dependent whose deactivation does not throw is deactivated and
unregistered no matter which package provisioned it, and a backing file is
only ever removed for an object whose package is `_api`. -/
theorem delete_ownership_checked_only_at_root :
    (∀ (t : DepTree) (cascade : Bool) (st : DeleteState),
      t.info.package ≠ "_api" →
      ConfigObjectUtility.DeleteObject t cascade st
        = (false, { st with errors := st.errors ++
            ["Object cannot be deleted because it was not created using the API."] })) ∧
    (∀ (info : ObjInfo) (deps : List DepTree) (st : DeleteState) (d : DepTree),
      d ∈ deps → d.info.deactivateThrows = false →
      d.info.name ∈ (ConfigObjectUtility.DeleteObjectHelper (DepTree.node info deps)
        true st).2.deactivated ∧
      d.info.name ∈ (ConfigObjectUtility.DeleteObjectHelper (DepTree.node info deps)
        true st).2.unregistered) ∧
    (∀ (t : DepTree) (cascade : Bool) (st : DeleteState) (p : String),
      p ∈ (ConfigObjectUtility.DeleteObjectHelper t cascade st).2.removedFiles →
      p ∈ st.removedFiles ∨
        ∃ i ∈ t.infos, i.package = "_api" ∧ i.filePath = p) := by
  refine ⟨?_, ?_, ?_⟩
  · intro t cascade st hpkg
    unfold ConfigObjectUtility.DeleteObject
    simp [hpkg]
  · intro info deps st d hd hthrow
    have hmem := DeleteParents_mem_processed deps st d hd hthrow
    have hgrow := DeleteObjectHelper_grows_from_parents info deps st
    exact ⟨hgrow.mem_deactivated hmem.1, hgrow.mem_unregistered hmem.2⟩
  · intro t cascade st p hp
    exact DeleteObjectHelper_removed_api t cascade st p hp

/-- Witness for `delete_ownership_checked_only_at_root`: a root outside
`_api` is rejected; the non-`_api` dependent `c` of `a` is unregistered by
the cascade while its file is not removed. -/
theorem delete_ownership_checked_only_at_root_witness :
    ConfigObjectUtility.DeleteObject (DepTree.node infoC []) false emptyDeleteState
      = (false, { emptyDeleteState with errors :=
          ["Object cannot be deleted because it was not created using the API."] }) ∧
    "c" ∈ (ConfigObjectUtility.DeleteObjectHelper treeAC true
      emptyDeleteState).2.unregistered ∧
    "/etc/icinga2/conf.d/services/c.conf" ∉
      (ConfigObjectUtility.DeleteObjectHelper treeAC true
        emptyDeleteState).2.removedFiles :=
  ⟨delete_ownership_checked_only_at_root.1 (DepTree.node infoC []) false
      emptyDeleteState (by decide),
   (delete_ownership_checked_only_at_root.2.1 infoA [DepTree.node infoC []]
      emptyDeleteState (DepTree.node infoC [])
      (List.mem_singleton.mpr (Eq.refl _)) rfl).2,
   by decide⟩

/-- The validation loop reports some offending key whenever the attribute
list contains one. -/
theorem validateAttrs_isSome_of_invalid (type : ObjType)
    (as : List (String × String)) (h : ∃ kv ∈ as, invalidAttrKey type kv.1) :
    ∃ msg, validateAttrs type as = some msg := by
  induction as with
  | nil => simp at h
  | cons kv rest ih =>
    obtain ⟨k, v⟩ := kv
    by_cases h1 : getFieldId type.fields (attrKeyBase k) < 0
    · exact ⟨"Invalid attribute specified: " ++ k, by simp [validateAttrs, h1]⟩
    · by_cases h2 : (!(getFieldInfo type.fields
          (getFieldId type.fields (attrKeyBase k))).2 || k == "name") = true
      · exact ⟨"Attribute is marked for internal use only and may not be set: " ++ k,
          by simp only [validateAttrs]; rw [if_neg h1, if_pos h2]⟩
      · have hrest : ∃ kv ∈ rest, invalidAttrKey type kv.1 := by
          obtain ⟨kv', hmem, hbad⟩ := h
          rcases List.mem_cons.mp hmem with heq | htail
          · exfalso
            subst heq
            have hbad' : invalidAttrKey type k := hbad
            rcases hbad' with hb | hb | hb
            · exact h1 hb
            · exact h2 (by simp [hb])
            · exact h2 (by simp [hb])
          · exact ⟨kv', htail, hbad⟩
        obtain ⟨msg, hmsg⟩ := ih hrest
        exact ⟨msg, by simp only [validateAttrs]; rw [if_neg h1, if_neg h2]; exact hmsg⟩

/-- C6: a create request whose attribute set contains a key naming no field
of the type, or a field not marked externally assignable, or the synthetic
key `name`, fails during config rendering with a validation error, and the
failure happens before any disk write: the combined render-then-create flow
reports failure having created no directory, opened no pending write, and
persisted no file. -/
theorem createObjectConfig_invalid_attr_rejected (sha1Hex : String → String)
    (e : CreateEnv) (nameParts : Option (List (String × String)))
    (ignoreOnError : Bool) (templates : List String)
    (attrs : List (String × String)) (version : String)
    (h : ∃ kv ∈ attrs, invalidAttrKey e.type kv.1) :
    (∃ msg, ConfigObjectUtility.CreateObjectConfig e.type e.fullName nameParts
      ignoreOnError templates (some attrs) version = Except.error msg) ∧
    (renderAndCreate sha1Hex e nameParts ignoreOnError templates (some attrs)
      version).result = CallResult.ret false ∧
    (renderAndCreate sha1Hex e nameParts ignoreOnError templates (some attrs)
      version).dirsCreated = [] ∧
    (renderAndCreate sha1Hex e nameParts ignoreOnError templates (some attrs)
      version).tempOpened = none ∧
    (renderAndCreate sha1Hex e nameParts ignoreOnError templates (some attrs)
      version).filesCreated = [] := by
  obtain ⟨msg, hv⟩ := validateAttrs_isSome_of_invalid e.type attrs h
  have hcfg : ConfigObjectUtility.CreateObjectConfig e.type e.fullName nameParts
      ignoreOnError templates (some attrs) version = Except.error msg := by
    unfold ConfigObjectUtility.CreateObjectConfig
    simp [hv]
  refine ⟨⟨msg, hcfg⟩, ?_, ?_, ?_, ?_⟩ <;>
    simp [renderAndCreate, hcfg, emptyOutcome]

/-- Witness for `createObjectConfig_invalid_attr_rejected`: the unknown
key `bogus` among valid attributes is rejected with no filesystem effect. -/
theorem createObjectConfig_invalid_attr_rejected_witness :
    (∃ msg, ConfigObjectUtility.CreateObjectConfig hostType "h1" none false []
      (some [("check_command", "ping"), ("bogus", "1")]) "100"
        = Except.error msg) ∧
    (renderAndCreate (fun _ => "") envSuccess none false []
      (some [("check_command", "ping"), ("bogus", "1")]) "100").filesCreated
        = [] :=
  ⟨(createObjectConfig_invalid_attr_rejected (fun _ => "") envSuccess none false
      [] [("check_command", "ping"), ("bogus", "1")] "100"
      ⟨("bogus", "1"), by decide, by decide⟩).1,
   (createObjectConfig_invalid_attr_rejected (fun _ => "") envSuccess none false
      [] [("check_command", "ping"), ("bogus", "1")] "100"
      ⟨("bogus", "1"), by decide, by decide⟩).2.2.2.2⟩

end Icinga
